import Mathlib

/-!
Verification of the b2b-lists-api proxy service (src/server.js and the
draftpad variant in src/unnamed/part_001) against its specification.

The embedding models query parameters, the Shopify App Proxy signature
verifier, the list/list-item store, the action dispatcher, and the
draft-order composer.  External primitives (HMAC-SHA256, JSON.parse, the
upstream GraphQL endpoint, UUID generation, transaction-step failures)
are parameters of the embedded functions.
-/

namespace B2B

/-- JS String.prototype.trim: strip whitespace from both ends. -/
def jsTrim (s : String) : String :=
  String.mk (((s.data.dropWhile Char.isWhitespace).reverse.dropWhile
    Char.isWhitespace).reverse)

/-- The test part of the regex check `/^\d+$/.test(s)` for a string already
known non-empty: every character is a decimal digit. -/
def allDigits (s : String) : Bool := s.data.all Char.isDigit

/-- Lexicographic comparison of strings by code point, the order JS
`Array.prototype.sort()` applies to the query keys. -/
def strLeChars : List Char → List Char → Bool
  | [], _ => true
  | _ :: _, [] => false
  | a :: as, b :: bs =>
    if a.toNat = b.toNat then strLeChars as bs else a.toNat < b.toNat

/-- String form of `strLeChars`. -/
def strLe (a b : String) : Bool := strLeChars a.data b.data

/-- Insert a string into an already sorted list. -/
def insortStr (x : String) : List String → List String
  | [] => [x]
  | y :: ys => if strLe x y then x :: y :: ys else y :: insortStr x ys

/-- JS `keys.sort()`: sort the key list lexicographically. -/
def sortStrings : List String → List String
  | [] => []
  | x :: xs => insortStr x (sortStrings xs)

/-- JS String.prototype.toUpperCase restricted to ASCII, enough for HTTP
method names. -/
def jsToUpperAscii (s : String) : String :=
  String.mk (s.data.map (fun c =>
    if 97 ≤ c.toNat && c.toNat ≤ 122 then Char.ofNat (c.toNat - 32) else c))

/-- A query-string parameter value as Express presents it: a single string
or an array of strings (repeated keys). -/
inductive QVal where
  | one (s : String)
  | arr (l : List String)
deriving Repr, DecidableEq

/-- JS Array.prototype.join with a separator (also String concatenation
when the separator is empty).  `[].join(s) = ""`, `[a].join(s) = a`. -/
def joinSep (sep : String) : List String → String
  | [] => ""
  | [a] => a
  | a :: b :: rest => a ++ sep ++ joinSep sep (b :: rest)

/-- JS `.toString()` of a query value: arrays join with commas. -/
def QVal.str : QVal → String
  | .one s => s
  | .arr l => joinSep "," l

/-- JS truthiness of a query value: an empty string is falsy, any array
(even empty) is truthy. -/
def QVal.truthy : QVal → Bool
  | .one s => s ≠ ""
  | .arr _ => true

/-- A query-parameter mapping (`req.query`): association list from key to value. -/
abbrev Query := List (String × QVal)

/-- Lookup of a query key (`req.query[k]`, `undefined` when absent). -/
def qlookup (q : Query) (k : String) : Option QVal :=
  (q.find? (fun p => p.1 = k)).map Prod.snd

/-- JS `a || b` on an optional query value against a fallback. -/
def jsOrQ (v : Option QVal) (fallback : QVal) : QVal :=
  match v with
  | some w => if w.truthy then w else fallback
  | none => fallback

/-- server.js line 161: `(q.signature || "").toString()`. -/
def suppliedSignature (q : Query) : String :=
  match qlookup q "signature" with
  | none => ""
  | some v => v.str

/-- server.js lines 164-169: delete the `signature` key, sort the remaining
keys lexicographically, render each as `key=value` (array values joined by
commas), and concatenate the pairs with no separator. -/
def canonicalMessage (q : Query) : String :=
  let keys := sortStrings ((q.map Prod.fst).filter (fun k => k ≠ "signature"))
  joinSep "" (keys.map (fun k => k ++ "=" ++ ((qlookup q k).getD (QVal.one "")).str))

/-- Outcome of the verifyAppProxy middleware: either pass control to the
route handler (`next()`) or respond immediately. -/
inductive VerifyResult where
  | pass
  | reject (status : Nat) (error : String)
deriving Repr, DecidableEq

/-- server.js lines 156-184 (verifyAppProxy middleware).  `hmacHex k m`
stands for `crypto.createHmac("sha256", k).update(m).digest("hex")`.  The
length guard plus `crypto.timingSafeEqual` on the UTF-8 bytes of the two
strings is byte-for-byte equality, i.e. string equality.  An unset
SHOPIFY_APP_SECRET is modelled as the empty string: the code then calls
`next()` without any verification (fail-open). -/
def verifyAppProxy (secret : String) (hmacHex : String → String → String)
    (q : Query) : VerifyResult :=
  if secret = "" then .pass
  else if suppliedSignature q = "" then .reject 401 "Missing signature"
  else if hmacHex secret (canonicalMessage q) = suppliedSignature q then .pass
  else .reject 401 "Invalid signature"

/-- A row of the `lists` relation (timestamps are not modelled; no claim
mentions them). -/
structure ListRow where
  id : String
  customer_id : String
  name : String
deriving Repr, DecidableEq

/-- A row of the `list_items` relation. -/
structure ItemRow where
  list_id : String
  sku : String
  quantity : Int
deriving Repr, DecidableEq

/-- The persisted state: the two relations, rows in insertion order
(`created_at` ascending). -/
structure DB where
  lists : List ListRow
  items : List ItemRow
deriving Repr, DecidableEq

/-- A JSON response as built by the `json` helper (server.js lines 80-84):
HTTP status, the `ok` flag, and the optional payload fields the actions
produce. -/
structure Response where
  status : Nat
  ok : Bool
  error : Option String := none
  lists : Option (List (String × String × Nat)) := none
  list : Option (String × String × List (String × Int)) := none
  list_id : Option String := none
  items : Option (List (String × Int)) := none
  draft_order_id : Option String := none
  draft_order_name : Option String := none
deriving Repr, DecidableEq

/-- The 404 body shared by get/delete/orderify on a miss. -/
def notFoundResp : Response :=
  { status := 404, ok := false, error := some "List not found" }

/-- JS `Number(x.quantity || 1)` applied to an integer column value: a
stored 0 is falsy and becomes 1. -/
def jsNumOr1 (n : Int) : Int := if n = 0 then 1 else n

/-- server.js lines 259-296 (`get` action body, after list_id extraction):
select the list scoped to (id, customer_id); 404 on a miss; otherwise the
list with its items in creation order. -/
def getAction (db : DB) (customerId listId : String) : Response :=
  if listId = "" then { status := 400, ok := false, error := some "Missing list_id" }
  else
    match db.lists.find? (fun l => l.id == listId && l.customer_id == customerId) with
    | none => notFoundResp
    | some l =>
      let its := (db.items.filter (fun it => it.list_id == listId)).map
        (fun it => (it.sku, jsNumOr1 it.quantity))
      { status := 200, ok := true, list := some (l.id, l.name, its) }

/-- server.js lines 375-390 (`delete` action body): delete scoped to
(id, customer_id); 404 when no row matched; items cascade with the list. -/
def deleteAction (db : DB) (customerId listId : String) : DB × Response :=
  if listId = "" then (db, { status := 400, ok := false, error := some "Missing list_id" })
  else
    let matched := db.lists.filter (fun l => l.id == listId && l.customer_id == customerId)
    if matched.isEmpty then (db, notFoundResp)
    else
      let lists1 := db.lists.filter (fun l => !(l.id == listId && l.customer_id == customerId))
      let items1 := db.items.filter (fun it => !(matched.any (fun l => l.id == it.list_id)))
      (⟨lists1, items1⟩, { status := 200, ok := true })

/-- server.js lines 392-416 (`orderify` action body): verify ownership
scoped to (id, customer_id); 404 on a miss; otherwise the raw item
sequence. -/
def orderifyAction (db : DB) (customerId listId : String) : Response :=
  if listId = "" then { status := 400, ok := false, error := some "Missing list_id" }
  else
    match db.lists.find? (fun l => l.id == listId && l.customer_id == customerId) with
    | none => notFoundResp
    | some _ =>
      { status := 200, ok := true,
        items := some ((db.items.filter (fun it => it.list_id == listId)).map
          (fun it => (it.sku, jsNumOr1 it.quantity))) }

/-- A JSON scalar as it can appear in a decoded `items` entry. -/
inductive JVal where
  | num (n : Int)
  | str (s : String)
  | null
deriving Repr, DecidableEq

/-- One decoded element of the `items` JSON array; `none` fields are absent
properties (`undefined`). -/
structure JItem where
  sku : Option JVal := none
  quantity : Option JVal := none
deriving Repr, DecidableEq

/-- JS `(v || "").toString()` for an optional JSON scalar: `undefined`,
`null`, `""` and `0` are falsy and give `""`. -/
def jsStrOrEmpty : Option JVal → String
  | none => ""
  | some .null => ""
  | some (.str s) => s
  | some (.num n) => if n = 0 then "" else toString n

/-- Longest leading run of decimal digits. -/
def leadingDigits : List Char → List Char
  | [] => []
  | c :: cs => if c.isDigit then c :: leadingDigits cs else []

/-- Value of a digit string. -/
def digitsToNat (cs : List Char) : Nat :=
  cs.foldl (fun acc c => acc * 10 + (c.toNat - '0'.toNat)) 0

/-- JS `Number.parseInt(s, 10)` on a string: skip leading whitespace, an
optional sign, then the longest digit run; `none` models NaN. -/
def parseIntJs (s : String) : Option Int :=
  let cs := s.toList.dropWhile (fun c => c.isWhitespace)
  match cs with
  | '-' :: rest =>
    let ds := leadingDigits rest
    if ds.isEmpty then none else some (-(digitsToNat ds : Int))
  | '+' :: rest =>
    let ds := leadingDigits rest
    if ds.isEmpty then none else some (digitsToNat ds : Int)
  | _ =>
    let ds := leadingDigits cs
    if ds.isEmpty then none else some (digitsToNat ds : Int)

/-- server.js line 94: `Number.parseInt(x?.quantity ?? 1, 10)`.  An absent or
null quantity defaults to 1; an integer number parses to itself (parseInt
stringifies it first); a string goes through parseIntJs; `none` is NaN. -/
def parsedQuantity : Option JVal → Option Int
  | none => some 1
  | some .null => some 1
  | some (.num n) => some n
  | some (.str s) => parseIntJs s

/-- server.js lines 91-97: map each entry to (trimmed sku, parsed quantity),
keep only entries with a non-empty sku and a finite positive quantity. -/
def decodeItems (arr : List JItem) : List (String × Int) :=
  ((arr.map (fun x => (jsTrim (jsStrOrEmpty x.sku), parsedQuantity x.quantity))).filter
    (fun p => p.1 ≠ "" && (match p.2 with | some q => q > 0 | none => false))).map
    (fun p => (p.1, p.2.getD 0))

/-- server.js lines 86-101 (safeParseItems).  `jsonArray s` stands for the
`JSON.parse(s)` boundary: `none` when parsing throws or the result is not
an array (both give `[]` in the code). -/
def safeParseItems (jsonArray : String → Option (List JItem)) (itemsStr : String) :
    List (String × Int) :=
  if itemsStr = "" then []
  else
    match jsonArray itemsStr with
    | none => []
    | some arr => decodeItems arr

/-- The statements `client.query` runs inside the upsert transaction; a
failure oracle picks the step (if any) whose query throws. -/
inductive UpsertStep where
  | txBegin
  | updateList
  | insertList
  | deleteItems
  | insertItems
  | commit
deriving Repr, DecidableEq

/-- server.js lines 308-364: the body of the upsert transaction.  `freshId`
stands for the UUID `gen_random_uuid()` would assign to an inserted list.
`none` means some step threw, the catch block ran ROLLBACK, and no staged
write survives; under read-committed isolation only the committed final
state is observable, so intermediate staged states are not modelled. -/
def upsertTx (db : DB) (freshId : String) (failAt : Option UpsertStep)
    (customerId listIdRaw name : String) (items : List (String × Int)) :
    Option (DB × String) :=
  if failAt = some .txBegin then none
  else
    let updated : Option (List ListRow × String) :=
      if listIdRaw ≠ "" then
        if failAt = some .updateList then none
        else if db.lists.any (fun l => l.id == listIdRaw && l.customer_id == customerId) then
          some (db.lists.map (fun l =>
            if l.id == listIdRaw && l.customer_id == customerId then
              { l with name := name }
            else l), listIdRaw)
        else if failAt = some .insertList then none
        else some (db.lists ++ [⟨freshId, customerId, name⟩], freshId)
      else if failAt = some .insertList then none
      else some (db.lists ++ [⟨freshId, customerId, name⟩], freshId)
    match updated with
    | none => none
    | some (lists1, listId) =>
      if failAt = some .deleteItems then none
      else if failAt = some .insertItems then none
      else if failAt = some .commit then none
      else
        some (⟨lists1,
          (db.items.filter (fun it => it.list_id != listId)) ++
            items.map (fun p => ⟨listId, p.1, p.2⟩)⟩, listId)

/-- Outcome of the upsert action: the database after the call, the HTTP
response, and whether a transaction was opened (BEGIN reached). -/
structure UpsertOutcome where
  db : DB
  resp : Response
  txOpened : Bool
deriving Repr, DecidableEq

/-- server.js lines 298-373 (`upsert` action body, after field extraction):
validation first, then the transaction; any thrown step rolls the whole
transaction back and yields a 500. -/
def upsertAction (db : DB) (freshId : String) (failAt : Option UpsertStep)
    (customerId listIdRaw name : String) (items : List (String × Int)) :
    UpsertOutcome :=
  if name = "" then
    ⟨db, { status := 400, ok := false, error := some "Missing name" }, false⟩
  else if items.isEmpty then
    ⟨db, { status := 400, ok := false, error := some "No valid items provided" }, false⟩
  else
    match upsertTx db freshId failAt customerId listIdRaw name items with
    | none => ⟨db, { status := 500, ok := false, error := some "Server error" }, true⟩
    | some (db1, listId) =>
      ⟨db1, { status := 200, ok := true, list_id := some listId }, true⟩

/-- One entry of the `userErrors` list in a draftOrderCreate reply. -/
structure UserError where
  field : String
  message : String
deriving Repr, DecidableEq

/-- The `draftOrderCreate` payload of the upstream GraphQL reply:
structured validation errors plus the created draft order id/name, when
any.  An absent payload is modelled as `⟨[], none⟩`. -/
structure DraftOrderCreateResult where
  userErrors : List UserError
  draftOrder : Option (String × String)
deriving Repr, DecidableEq

/-- server.js lines 456-484: interpretation of the upstream draft-order
round-trip.  `Except.error m` is a thrown transport/GraphQL failure with
message `m` (the catch block).  Structured userErrors are joined verbatim
with " | " (empty messages dropped by `filter(Boolean)`) and returned as a
business-level rejection with status 200. -/
def draftpadHandleUpstream (r : Except String DraftOrderCreateResult) : Response :=
  match r with
  | .error msg =>
    { status := 200, ok := false,
      error := some (if msg = "" then "Draft order not created" else msg) }
  | .ok out =>
    if !out.userErrors.isEmpty then
      let joined := joinSep " | "
        ((out.userErrors.map UserError.message).filter (fun m => m ≠ ""))
      { status := 200, ok := false,
        error := some (if joined = "" then "Draft order not created" else joined) }
    else
      match out.draftOrder with
      | none => { status := 200, ok := false, error := some "Draft order not created" }
      | some (oid, onm) =>
        { status := 200, ok := true, draft_order_id := some oid,
          draft_order_name := some onm }

/-- An inbound request: HTTP method, parsed query string, and the
url-encoded form body (string fields). -/
structure Request where
  method : String
  query : Query
  body : List (String × String)
deriving Repr

/-- Form-body lookup with the JS `(req.body?.k || "")` default. -/
def blookup (b : List (String × String)) (k : String) : String :=
  ((b.find? (fun p => p.1 = k)).map Prod.snd).getD ""

/-- server.js line 206: `req.query.customer_id || req.body?.customer_id`
(a falsy query value falls through to the body; absent both is null-ish). -/
def rawCustomerId (req : Request) : Option String :=
  match qlookup req.query "customer_id" with
  | some v =>
    if v.truthy then some v.str
    else (req.body.find? (fun p => p.1 = "customer_id")).map Prod.snd
  | none => (req.body.find? (fun p => p.1 = "customer_id")).map Prod.snd

/-- server.js lines 103-109 (normalizeCustomerId): null on absence, trim,
reject the empty string and anything not matching the digits-only pattern. -/
def normalizeCustomerId (raw : Option String) : Option String :=
  match raw with
  | none => none
  | some r =>
    let s := jsTrim r
    if s = "" then none
    else if allDigits s then some s
    else none

/-- server.js line 203: `(req.query.action || req.query.actions || "")
.toString().trim()`. -/
def actionOf (q : Query) : String :=
  jsTrim (jsOrQ (qlookup q "action") (jsOrQ (qlookup q "actions") (QVal.one ""))).str

/-- server.js lines 212-219: the fixed action/method table. -/
def allowedMethods : String → List String
  | "list" => ["GET"]
  | "get" => ["GET"]
  | "orderify" => ["GET"]
  | "upsert" => ["POST"]
  | "delete" => ["POST"]
  | "draftpad" => ["POST"]
  | _ => []

/-- The get action's list_id extraction (server.js line 260):
`(req.query.list_id || req.body?.list_id || "").toString().trim()`. -/
def getListIdArg (req : Request) : String :=
  jsTrim (jsOrQ (qlookup req.query "list_id") (QVal.one (blookup req.body "list_id"))).str

/-- The delete action's list_id extraction (server.js line 376):
`(req.body?.list_id || req.query.list_id || "").toString().trim()`. -/
def deleteListIdArg (req : Request) : String :=
  jsTrim (if blookup req.body "list_id" ≠ "" then blookup req.body "list_id"
   else (jsOrQ (qlookup req.query "list_id") (QVal.one "")).str)

/-- The orderify action's list_id extraction (server.js line 393):
`(req.query.list_id || "").toString().trim()`. -/
def orderifyListIdArg (req : Request) : String :=
  jsTrim (jsOrQ (qlookup req.query "list_id") (QVal.one "")).str

/-- server.js lines 221-489: the action switch, reached only after
verification and customer-id extraction.  Returns the response, the
database after the call, and whether the outbound draft-order call was
attempted.  `upstream` is the draft-order round-trip outcome used when the
draftpad case reaches `shopifyGql`. -/
def dispatchAction (jsonArray : String → Option (List JItem)) (freshId : String)
    (failAt : Option UpsertStep) (upstream : Except String DraftOrderCreateResult)
    (db : DB) (req : Request) (action method customerId : String) :
    Response × DB × Bool :=
  if !((allowedMethods action).contains method) then
    ({ status := 400, ok := false,
       error := some ("Unsupported action/method. action=" ++
         (if action = "" then "(missing)" else action) ++ " method=" ++ method) },
     db, false)
  else
    match action with
    | "list" =>
      ({ status := 200, ok := true,
         lists := some ((db.lists.filter (fun l => l.customer_id == customerId)).map
           (fun l => (l.id, l.name,
             (db.items.filter (fun it => it.list_id == l.id)).length))) },
       db, false)
    | "get" => (getAction db customerId (getListIdArg req), db, false)
    | "upsert" =>
      let o := upsertAction db freshId failAt customerId
        (jsTrim (blookup req.body "list_id")) (jsTrim (blookup req.body "name"))
        (safeParseItems jsonArray (blookup req.body "items"))
      (o.resp, o.db, false)
    | "delete" =>
      let o := deleteAction db customerId (deleteListIdArg req)
      (o.2, o.1, false)
    | "orderify" => (orderifyAction db customerId (orderifyListIdArg req), db, false)
    | "draftpad" =>
      let note := jsTrim (blookup req.body "note")
      if note = "" then
        ({ status := 400, ok := false, error := some "Missing note" }, db, false)
      else (draftpadHandleUpstream upstream, db, true)
    | _ => ({ status := 400, ok := false, error := some "Unsupported action" }, db, false)

/-- The observable outcome of one request to /proxy: the response, the
database afterwards, whether the main handler ran at all (the middleware
called `next()`), which customer identity the dispatcher resolved, and
whether an outbound platform call was attempted. -/
structure ProxyOutcome where
  resp : Response
  db : DB
  dispatched : Bool
  customerUsed : Option String
  outboundCalled : Bool
deriving Repr, DecidableEq

/-- server.js line 201 (`app.all("/proxy", verifyAppProxy, handler)`):
the verification middleware runs first; only when it passes does the
handler extract the customer id and dispatch the action. -/
def handleProxy (secret : String) (hmacHex : String → String → String)
    (jsonArray : String → Option (List JItem)) (freshId : String)
    (failAt : Option UpsertStep) (upstream : Except String DraftOrderCreateResult)
    (db : DB) (req : Request) : ProxyOutcome :=
  match verifyAppProxy secret hmacHex req.query with
  | .reject st err =>
    ⟨{ status := st, ok := false, error := some err }, db, false, none, false⟩
  | .pass =>
    let action := actionOf req.query
    let method := jsToUpperAscii req.method
    match normalizeCustomerId (rawCustomerId req) with
    | none =>
      ⟨{ status := 400, ok := false, error := some "Missing customer_id" },
       db, true, none, false⟩
    | some customerId =>
      let core := dispatchAction jsonArray freshId failAt upstream db req
        action method customerId
      ⟨core.1, core.2.1, true, some customerId, core.2.2⟩

/-- One parsed entry of the `cart_items` JSON array in the part_001
draftpad variant (only the fields that handler reads). -/
structure CartItem where
  sku : String := ""
  title : String := ""
  variant_id : Int := 0
  quantity : Int := 0
deriving Repr, DecidableEq

/-- Result of the part_001 draftpad validation sequence: an early JSON
response produced before any outbound platform call, or the trimmed note
and parsed cart handed to the draft-order composition. -/
inductive Draftpad1Result where
  | early (resp : Response)
  | proceed (note : String) (cart : List CartItem)
deriving Repr, DecidableEq

/-- src/unnamed/part_001 lines 475-502 (`draftpad` case, validation part):
trim the note and the PO/contact fields, reject missing PO metadata, parse
`cart_items` leniently (`cartParsed` is the JSON.parse boundary, `none`
when parsing throws or yields a non-array, both giving `[]`), and require
at least one of a non-empty note or a non-empty cart before composing the
outbound draft-order request. -/
def draftpad1Validate (noteRaw poNumber siteContactName siteContactPhone : String)
    (cartParsed : Option (List CartItem)) : Draftpad1Result :=
  let note := jsTrim noteRaw
  if jsTrim poNumber = "" then
    .early { status := 400, ok := false, error := some "Missing PO Number" }
  else if jsTrim siteContactName = "" then
    .early { status := 400, ok := false, error := some "Missing Site Contact Name" }
  else if jsTrim siteContactPhone = "" then
    .early { status := 400, ok := false, error := some "Missing Site Contact Phone" }
  else
    let cartItems := cartParsed.getD []
    if note = "" && cartItems.isEmpty then
      .early { status := 400, ok := false,
               error := some "Please paste items or add items to cart." }
    else .proceed note cartItems

/-! Shared concrete material for witnesses. -/

/-- A fixed 64-character hex string, the shape of a hex-encoded SHA-256
digest; used as the output of concrete stand-ins for the HMAC primitive. -/
def hex64 : String :=
  "aaaaaaaaaaaaaaaaaaaaaaaaaaaaaaaaaaaaaaaaaaaaaaaaaaaaaaaaaaaaaaaa"

/-- A concrete stand-in for the HMAC-SHA256 primitive with the right
output shape. -/
def hmacConst : String → String → String := fun _ _ => hex64

/-! Claim theorems. -/

/-- C4: for every query-parameter mapping and configured secret, signature
verification accepts exactly when the hex-encoded HMAC-SHA256 under the
secret of the canonical message — signature key removed, remaining keys
sorted lexicographically, each rendered `key=value` with multi-valued keys
comma-joined, pairs concatenated with no separator — equals the supplied
signature byte-for-byte (`canonicalMessage` is that canonicalization;
string equality is byte equality, covering the length-mismatch rejection). -/
theorem c4_signature_accept_iff (secret : String)
    (hmacHex : String → String → String) (q : Query)
    (hsecret : secret ≠ "") (hlen : ∀ k m, (hmacHex k m).length = 64) :
    verifyAppProxy secret hmacHex q = .pass ↔
      hmacHex secret (canonicalMessage q) = suppliedSignature q := by
  unfold verifyAppProxy
  rw [if_neg hsecret]
  by_cases hp : suppliedSignature q = ""
  · rw [if_pos hp, hp]
    apply iff_of_false
    · intro h
      exact VerifyResult.noConfusion h
    · intro h
      have h64 := hlen secret (canonicalMessage q)
      rw [h] at h64
      exact absurd h64 (by decide)
  · rw [if_neg hp]
    by_cases hd : hmacHex secret (canonicalMessage q) = suppliedSignature q
    · rw [if_pos hd]
      exact iff_of_true rfl hd
    · rw [if_neg hd]
      exact iff_of_false (fun h => VerifyResult.noConfusion h) hd

/-- Witness for C4 at a concrete query and secret. -/
theorem c4_signature_accept_iff_witness :
    ("k" : String) ≠ "" ∧
    (verifyAppProxy "k" hmacConst [("a", QVal.one "1")] = .pass ↔
      hmacConst "k" (canonicalMessage [("a", QVal.one "1")]) =
        suppliedSignature [("a", QVal.one "1")]) :=
  ⟨by decide,
   c4_signature_accept_iff "k" hmacConst [("a", QVal.one "1")] (by decide)
     (fun _ _ => (by decide : hex64.length = 64))⟩

/-- C7: with the secret configured, a /proxy request whose query has no
`signature` key at all is answered 401 `{ok:false, error:"Missing
signature"}` by the middleware: the handler never runs — no customer-id
extraction, no action dispatch, no store change, no outbound call. -/
theorem c7_missing_signature_rejected_first (secret : String)
    (hmacHex : String → String → String) (jsonArray : String → Option (List JItem))
    (freshId : String) (failAt : Option UpsertStep)
    (upstream : Except String DraftOrderCreateResult) (db : DB) (req : Request)
    (hsecret : secret ≠ "")
    (hsig : ∀ p ∈ req.query, p.1 ≠ "signature") :
    handleProxy secret hmacHex jsonArray freshId failAt upstream db req =
      ⟨{ status := 401, ok := false, error := some "Missing signature" },
       db, false, none, false⟩ := by
  have hnone : qlookup req.query "signature" = none := by
    unfold qlookup
    rw [List.find?_eq_none.mpr]
    · rfl
    · intro p hp
      simp only [decide_eq_true_eq]
      exact hsig p hp
  have hsup : suppliedSignature req.query = "" := by
    unfold suppliedSignature
    rw [hnone]
  unfold handleProxy verifyAppProxy
  rw [if_neg hsecret, if_pos hsup]

/-- A concrete /proxy request with no signature parameter. -/
def c7Req : Request :=
  { method := "GET",
    query := [("action", QVal.one "list"), ("customer_id", QVal.one "7")],
    body := [] }

/-- Witness for C7 at a concrete request with the secret configured. -/
theorem c7_missing_signature_rejected_first_witness :
    handleProxy "k" hmacConst (fun _ => none) "f" none (.error "") ⟨[], []⟩ c7Req =
      ⟨{ status := 401, ok := false, error := some "Missing signature" },
       ⟨[], []⟩, false, none, false⟩ :=
  c7_missing_signature_rejected_first "k" hmacConst (fun _ => none) "f" none
    (.error "") ⟨[], []⟩ c7Req (by decide) (by decide)

/-- A concrete /proxy request with no signature parameter and a valid
action and customer id. -/
def c1Req : Request :=
  { method := "GET",
    query := [("action", QVal.one "list"), ("customer_id", QVal.one "7")],
    body := [] }

/-- C1 (evidence of its failure on the code): the claim requires that with
the shared secret unconfigured no request is dispatched to an action
handler, but verifyAppProxy calls `next()` when the secret is missing, so
this unsigned request is dispatched to the list handler as customer 7 and
answered 200. -/
theorem c1_missing_secret_fails_open :
    (handleProxy "" hmacConst (fun _ => none) "f" none (.error "") ⟨[], []⟩
        c1Req).dispatched = true ∧
    (handleProxy "" hmacConst (fun _ => none) "f" none (.error "") ⟨[], []⟩
        c1Req).customerUsed = some "7" ∧
    (handleProxy "" hmacConst (fun _ => none) "f" none (.error "") ⟨[], []⟩
        c1Req).resp.status = 200 := by
  refine ⟨?_, ?_, ?_⟩ <;> decide

/-- When no row matches both the id and the customer, the ownership-scoped
select finds nothing. -/
lemma find_owned_eq_none (lists : List ListRow) (C L : String)
    (h : ∀ l ∈ lists, ¬(l.id = L ∧ l.customer_id = C)) :
    lists.find? (fun l => l.id == L && l.customer_id == C) = none := by
  rw [List.find?_eq_none]
  intro l hl
  simp only [Bool.and_eq_true, beq_iff_eq]
  exact fun hc => h l hl hc

/-- When no row matches both the id and the customer, the ownership-scoped
filter is empty. -/
lemma filter_owned_eq_nil (lists : List ListRow) (C L : String)
    (h : ∀ l ∈ lists, ¬(l.id = L ∧ l.customer_id = C)) :
    lists.filter (fun l => l.id == L && l.customer_id == C) = [] := by
  rw [List.filter_eq_nil_iff]
  intro l hl
  simp only [Bool.and_eq_true, beq_iff_eq]
  exact fun hc => h l hl hc

/-- C2: get, delete and orderify invoked by customer C on a list id L that
exists but belongs to a different customer produce exactly the same
outcome — 404 with body {ok:false, error:"List not found"}, and for delete
no store change — as when no list with id L exists at all; the two cases
are indistinguishable. -/
theorem c2_cross_tenant_indistinguishable (db dbAbsent : DB) (C L : String)
    (hL : L ≠ "")
    (hForeign : ∃ l ∈ db.lists, l.id = L ∧ l.customer_id ≠ C)
    (hNotOwn : ∀ l ∈ db.lists, l.id = L → l.customer_id ≠ C)
    (hAbsent : ∀ l ∈ dbAbsent.lists, l.id ≠ L) :
    getAction db C L = notFoundResp ∧
    getAction dbAbsent C L = notFoundResp ∧
    (deleteAction db C L).2 = notFoundResp ∧
    (deleteAction dbAbsent C L).2 = notFoundResp ∧
    (deleteAction db C L).1 = db ∧
    orderifyAction db C L = notFoundResp ∧
    orderifyAction dbAbsent C L = notFoundResp := by
  have h1 : ∀ l ∈ db.lists, ¬(l.id = L ∧ l.customer_id = C) :=
    fun l hl hc => hNotOwn l hl hc.1 hc.2
  have h2 : ∀ l ∈ dbAbsent.lists, ¬(l.id = L ∧ l.customer_id = C) :=
    fun l hl hc => hAbsent l hl hc.1
  have f1 := find_owned_eq_none db.lists C L h1
  have f2 := find_owned_eq_none dbAbsent.lists C L h2
  have g1 := filter_owned_eq_nil db.lists C L h1
  have g2 := filter_owned_eq_nil dbAbsent.lists C L h2
  refine ⟨?_, ?_, ?_, ?_, ?_, ?_, ?_⟩
  · unfold getAction
    rw [if_neg hL, f1]
  · unfold getAction
    rw [if_neg hL, f2]
  · unfold deleteAction
    rw [if_neg hL, g1]
    rfl
  · unfold deleteAction
    rw [if_neg hL, g2]
    rfl
  · unfold deleteAction
    rw [if_neg hL, g1]
    rfl
  · unfold orderifyAction
    rw [if_neg hL, f1]
  · unfold orderifyAction
    rw [if_neg hL, f2]

/-- A store whose only list with id "L1" belongs to customer 2. -/
def c2Db : DB :=
  ⟨[⟨"L1", "2", "Other tenants list"⟩], [⟨"L1", "S", 1⟩]⟩

/-- Witness for C2: customer 1 probing list "L1" owned by customer 2 gets
the same 404 as probing the empty store. -/
theorem c2_cross_tenant_indistinguishable_witness :
    getAction c2Db "1" "L1" = notFoundResp ∧
    getAction ⟨[], []⟩ "1" "L1" = notFoundResp ∧
    (deleteAction c2Db "1" "L1").2 = notFoundResp ∧
    (deleteAction (⟨[], []⟩ : DB) "1" "L1").2 = notFoundResp ∧
    (deleteAction c2Db "1" "L1").1 = c2Db ∧
    orderifyAction c2Db "1" "L1" = notFoundResp ∧
    orderifyAction ⟨[], []⟩ "1" "L1" = notFoundResp :=
  c2_cross_tenant_indistinguishable c2Db ⟨[], []⟩ "1" "L1" (by decide)
    (by decide) (by decide) (by decide)

/-- With no step failure injected, the upsert transaction commits: it
resolves a list id and produces the staged state. -/
lemma upsertTx_none_eq (db : DB) (freshId cid lid name : String)
    (items : List (String × Int)) :
    upsertTx db freshId none cid lid name items =
      (if h : lid ≠ "" ∧
          db.lists.any (fun l => l.id == lid && l.customer_id == cid) then
        some (⟨db.lists.map (fun l =>
            if l.id == lid && l.customer_id == cid then { l with name := name }
            else l),
          (db.items.filter (fun it => it.list_id != lid)) ++
            items.map (fun p => ⟨lid, p.1, p.2⟩)⟩, lid)
      else
        some (⟨db.lists ++ [⟨freshId, cid, name⟩],
          (db.items.filter (fun it => it.list_id != freshId)) ++
            items.map (fun p => ⟨freshId, p.1, p.2⟩)⟩, freshId)) := by
  unfold upsertTx
  by_cases hlid : lid ≠ ""
  · by_cases hany : db.lists.any (fun l => l.id == lid && l.customer_id == cid)
    · simp [hlid, hany]
    · simp [hlid, hany]
  · simp [hlid]

/-- Rollback: whenever the upsert does not answer 200, the store is left
exactly as it was. -/
lemma upsert_rollback (db : DB) (freshId : String) (failAt : Option UpsertStep)
    (cid lid name : String) (items : List (String × Int))
    (h : (upsertAction db freshId failAt cid lid name items).resp.status ≠ 200) :
    (upsertAction db freshId failAt cid lid name items).db = db := by
  unfold upsertAction at h ⊢
  by_cases h1 : name = ""
  · simp [h1]
  · by_cases h2 : items.isEmpty
    · simp [h1, h2]
    · cases htx : upsertTx db freshId failAt cid lid name items with
      | none => simp [h1, h2, htx]
      | some p => simp [h1, h2, htx] at h

/-- An injected failure between the item delete and the item insert makes
the whole transaction abort. -/
lemma upsertTx_insertItems_fails (db : DB) (freshId cid lid name : String)
    (items : List (String × Int)) :
    upsertTx db freshId (some .insertItems) cid lid name items = none := by
  unfold upsertTx
  by_cases hlid : lid ≠ ""
  · by_cases hany : db.lists.any (fun l => l.id == lid && l.customer_id == cid)
    · simp [hlid, hany]
    · simp [hlid, hany]
  · simp [hlid]

/-- C3: the upsert is atomic: the list update-or-insert and the item
delete+reinsert run in one transaction, any post-BEGIN step failure rolls
everything back (a non-200 outcome leaves the store unchanged), and in
particular a failure injected between the item-delete and the item-insert
yields a 500 with the list's rows and item set exactly as before. -/
theorem c3_upsert_atomicity (db : DB) (freshId : String)
    (failAt : Option UpsertStep) (cid lid name : String)
    (items : List (String × Int)) :
    ((upsertAction db freshId failAt cid lid name items).resp.status ≠ 200 →
      (upsertAction db freshId failAt cid lid name items).db = db) ∧
    (name ≠ "" → items ≠ [] →
      (upsertAction db freshId (some .insertItems) cid lid name
          items).resp.status = 500 ∧
      (upsertAction db freshId (some .insertItems) cid lid name items).db = db ∧
      (upsertAction db freshId (some .insertItems) cid lid name
          items).txOpened = true) := by
  constructor
  · exact upsert_rollback db freshId failAt cid lid name items
  · intro hname hitems
    have hne : items.isEmpty = false := by
      cases items with
      | nil => exact absurd rfl hitems
      | cons a l => rfl
    unfold upsertAction
    rw [if_neg hname, hne]
    rw [upsertTx_insertItems_fails db freshId cid lid name items]
    exact ⟨rfl, rfl, rfl⟩

/-- A store holding list "L1" of customer 1 with one item. -/
def c3Db : DB := ⟨[⟨"L1", "1", "Weekly"⟩], [⟨"L1", "SKU1", 3⟩]⟩

/-- Witness for C3: a failure injected between item-delete and item-insert
on a concrete store yields 500 and leaves the store untouched. -/
theorem c3_upsert_atomicity_witness :
    (upsertAction c3Db "f" (some .insertItems) "1" "L1" "Weekly"
        [("SKU2", 5)]).resp.status = 500 ∧
    (upsertAction c3Db "f" (some .insertItems) "1" "L1" "Weekly"
        [("SKU2", 5)]).db = c3Db ∧
    (upsertAction c3Db "f" (some .insertItems) "1" "L1" "Weekly"
        [("SKU2", 5)]).txOpened = true :=
  (c3_upsert_atomicity c3Db "f" (some .insertItems) "1" "L1" "Weekly"
    [("SKU2", 5)]).2 (by decide) (by decide)

/-- C5: an upsert that supplies a listId resolves it by update-then-insert:
when a list (lid, cid) exists the update matches and the call returns that
very id with a 200; when it does not (absent id or another customer's
list) the call does not fail but inserts a brand-new list for the caller
and returns the freshly generated id. -/
theorem c5_upsert_update_then_insert_on_miss (db : DB) (freshId : String)
    (cid lid name : String) (items : List (String × Int))
    (hlid : lid ≠ "") (hname : name ≠ "") (hitems : items ≠ []) :
    ((∃ l ∈ db.lists, l.id = lid ∧ l.customer_id = cid) →
      (upsertAction db freshId none cid lid name items).resp.status = 200 ∧
      (upsertAction db freshId none cid lid name items).resp.ok = true ∧
      (upsertAction db freshId none cid lid name items).resp.list_id =
        some lid) ∧
    ((∀ l ∈ db.lists, ¬(l.id = lid ∧ l.customer_id = cid)) →
      (upsertAction db freshId none cid lid name items).resp.status = 200 ∧
      (upsertAction db freshId none cid lid name items).resp.ok = true ∧
      (upsertAction db freshId none cid lid name items).resp.list_id =
        some freshId ∧
      (⟨freshId, cid, name⟩ : ListRow) ∈
        (upsertAction db freshId none cid lid name items).db.lists) := by
  have hne : items.isEmpty = false := by
    cases items with
    | nil => exact absurd rfl hitems
    | cons a l => rfl
  constructor
  · intro hex
    have hany : db.lists.any (fun l => l.id == lid && l.customer_id == cid) = true := by
      rw [List.any_eq_true]
      obtain ⟨l, hl, h1, h2⟩ := hex
      exact ⟨l, hl, by simp [h1, h2]⟩
    unfold upsertAction
    rw [if_neg hname, hne, upsertTx_none_eq, dif_pos ⟨hlid, hany⟩]
    exact ⟨rfl, rfl, rfl⟩
  · intro hall
    have hany : db.lists.any (fun l => l.id == lid && l.customer_id == cid) = false := by
      rw [List.any_eq_false]
      intro l hl
      simp only [Bool.and_eq_true, beq_iff_eq]
      exact fun hc => hall l hl hc
    unfold upsertAction
    rw [if_neg hname, hne, upsertTx_none_eq, dif_neg]
    · refine ⟨rfl, rfl, rfl, ?_⟩
      simp
    · intro hc
      rw [hany] at hc
      exact Bool.noConfusion hc.2

/-- Witness for C5: on a store where "L1" belongs to customer 2, customer
1's upsert naming "L1" falls back to inserting fresh id "f"; on a store
where "L1" belongs to customer 1, the update matches and "L1" is
returned. -/
theorem c5_upsert_update_then_insert_on_miss_witness :
    ((upsertAction c2Db "f" none "1" "L1" "Mine" [("S", 2)]).resp.list_id =
       some "f" ∧
     (⟨"f", "1", "Mine"⟩ : ListRow) ∈
       (upsertAction c2Db "f" none "1" "L1" "Mine" [("S", 2)]).db.lists) ∧
    (upsertAction c3Db "f" none "1" "L1" "Mine" [("S", 2)]).resp.list_id =
      some "L1" :=
  ⟨⟨((c5_upsert_update_then_insert_on_miss c2Db "f" "1" "L1" "Mine" [("S", 2)]
        (by decide) (by decide) (by decide)).2 (by decide)).2.2.1,
    ((c5_upsert_update_then_insert_on_miss c2Db "f" "1" "L1" "Mine" [("S", 2)]
        (by decide) (by decide) (by decide)).2 (by decide)).2.2.2⟩,
   ((c5_upsert_update_then_insert_on_miss c3Db "f" "1" "L1" "Mine" [("S", 2)]
        (by decide) (by decide) (by decide)).1 (by decide)).2.2⟩

/-- With valid inputs and no injected failure, the upsert commits with a
200, whatever list id was supplied. -/
lemma upsert_success (db : DB) (freshId cid lid name : String)
    (items : List (String × Int)) (hname : name ≠ "") (hitems : items ≠ []) :
    (upsertAction db freshId none cid lid name items).resp.status = 200 ∧
    (upsertAction db freshId none cid lid name items).resp.ok = true := by
  have hne : items.isEmpty = false := by
    cases items with
    | nil => exact absurd rfl hitems
    | cons a l => rfl
  unfold upsertAction
  rw [if_neg hname, hne, upsertTx_none_eq]
  by_cases h : lid ≠ "" ∧
      db.lists.any (fun l => l.id == lid && l.customer_id == cid)
  · rw [dif_pos h]
    exact ⟨rfl, rfl⟩
  · rw [dif_neg h]
    exact ⟨rfl, rfl⟩

/-- The item array of the filtering scenario:
`[{sku:"A",quantity:2},{sku:"",quantity:1},{sku:"B",quantity:-1},
{sku:"C",quantity:"x"}]`. -/
def c6Input : List JItem :=
  [ { sku := some (.str "A"), quantity := some (.num 2) },
    { sku := some (.str ""), quantity := some (.num 1) },
    { sku := some (.str "B"), quantity := some (.num (-1)) },
    { sku := some (.str "C"), quantity := some (.str "x") } ]

/-- The same array with the single valid entry removed. -/
def c6InvalidOnly : List JItem :=
  [ { sku := some (.str ""), quantity := some (.num 1) },
    { sku := some (.str "B"), quantity := some (.num (-1)) },
    { sku := some (.str "C"), quantity := some (.str "x") } ]

/-- C6: item decoding filters rather than rejects: of the four given
entries exactly {sku:"A",quantity:2} survives (empty SKU, non-positive
quantity and non-numeric quantity are silently dropped); an upsert whose
input decodes to that one valid entry succeeds, and an upsert whose input
decodes to zero valid entries fails 400 "No valid items provided" with no
transaction opened and no store change. -/
theorem c6_item_filtering (db : DB) (freshId cid lid name : String)
    (failAt : Option UpsertStep) (hname : name ≠ "") :
    decodeItems c6Input = [("A", 2)] ∧
    decodeItems c6InvalidOnly = [] ∧
    (upsertAction db freshId none cid lid name
        (decodeItems c6Input)).resp.status = 200 ∧
    (upsertAction db freshId failAt cid lid name
        (decodeItems c6InvalidOnly)).resp =
      { status := 400, ok := false, error := some "No valid items provided" } ∧
    (upsertAction db freshId failAt cid lid name
        (decodeItems c6InvalidOnly)).txOpened = false ∧
    (upsertAction db freshId failAt cid lid name
        (decodeItems c6InvalidOnly)).db = db := by
  have hdec : decodeItems c6Input = [("A", 2)] := by decide
  have hinv : decodeItems c6InvalidOnly = [] := by decide
  refine ⟨hdec, hinv, ?_, ?_, ?_, ?_⟩
  · exact (upsert_success db freshId cid lid name (decodeItems c6Input) hname
      (by rw [hdec]; exact fun h => List.noConfusion h)).1
  · rw [hinv]
    unfold upsertAction
    rw [if_neg hname]
    rfl
  · rw [hinv]
    unfold upsertAction
    rw [if_neg hname]
    rfl
  · rw [hinv]
    unfold upsertAction
    rw [if_neg hname]
    rfl

/-- Witness for C6 on the empty store. -/
theorem c6_item_filtering_witness :
    decodeItems c6Input = [("A", 2)] ∧
    decodeItems c6InvalidOnly = [] ∧
    (upsertAction ⟨[], []⟩ "f" none "1" "" "Weekly"
        (decodeItems c6Input)).resp.status = 200 ∧
    (upsertAction ⟨[], []⟩ "f" none "1" "" "Weekly"
        (decodeItems c6InvalidOnly)).resp =
      { status := 400, ok := false, error := some "No valid items provided" } ∧
    (upsertAction ⟨[], []⟩ "f" none "1" "" "Weekly"
        (decodeItems c6InvalidOnly)).txOpened = false ∧
    (upsertAction ⟨[], []⟩ "f" none "1" "" "Weekly"
        (decodeItems c6InvalidOnly)).db = ⟨[], []⟩ :=
  c6_item_filtering ⟨[], []⟩ "f" "1" "" "Weekly" none (by decide)

/-- C8: the cart-capable draftpad (src/unnamed/part_001) requires at least
one of a non-empty free-text note or a non-empty cart: with the PO and
contact fields present, it returns 400 "Please paste items or add items to
cart." before composing any outbound call exactly when both are absent,
and otherwise passes that validation gate and proceeds to the outbound
composition. -/
theorem c8_draftpad_note_or_cart (noteRaw po scn scp : String)
    (cartParsed : Option (List CartItem))
    (hpo : jsTrim po ≠ "") (hscn : jsTrim scn ≠ "") (hscp : jsTrim scp ≠ "") :
    (draftpad1Validate noteRaw po scn scp cartParsed =
        .early { status := 400, ok := false,
                 error := some "Please paste items or add items to cart." }
      ↔ (jsTrim noteRaw = "" ∧ cartParsed.getD [] = [])) ∧
    ((jsTrim noteRaw ≠ "" ∨ cartParsed.getD [] ≠ []) →
      draftpad1Validate noteRaw po scn scp cartParsed =
        .proceed (jsTrim noteRaw) (cartParsed.getD [])) := by
  unfold draftpad1Validate
  rw [if_neg hpo, if_neg hscn, if_neg hscp]
  by_cases hnote : jsTrim noteRaw = ""
  · cases hc : cartParsed.getD [] with
    | nil =>
      refine ⟨iff_of_true ?_ ⟨hnote, rfl⟩, ?_⟩
      · simp [hnote]
      · intro h
        rcases h with h | h
        · exact absurd hnote h
        · exact absurd rfl h
    | cons a l =>
      refine ⟨iff_of_false ?_ (fun h => List.noConfusion h.2), ?_⟩
      · simp [hnote]
      · intro _
        simp [hnote]
  · refine ⟨iff_of_false ?_ (fun h => hnote h.1), ?_⟩
    · simp [hnote]
    · intro _
      simp [hnote]

/-- Witness for C8: a non-empty note with an empty cart passes the gate;
an empty note with an empty cart is rejected 400 before any outbound
call. -/
theorem c8_draftpad_note_or_cart_witness :
    (draftpad1Validate "" "PO1" "Ann" "555" none =
        .early { status := 400, ok := false,
                 error := some "Please paste items or add items to cart." }
      ↔ (jsTrim "" = "" ∧ (none : Option (List CartItem)).getD [] = [])) ∧
    draftpad1Validate "two pallets" "PO1" "Ann" "555" none =
      .proceed (jsTrim "two pallets") ((none : Option (List CartItem)).getD []) :=
  ⟨(c8_draftpad_note_or_cart "" "PO1" "Ann" "555" none (by decide) (by decide)
      (by decide)).1,
   (c8_draftpad_note_or_cart "two pallets" "PO1" "Ann" "555" none (by decide)
      (by decide) (by decide)).2 (Or.inl (by decide))⟩

/-- A non-empty join of non-empty strings is non-empty. -/
lemma joinSep_ne_empty (sep a : String) (l : List String) (ha : a ≠ "") :
    joinSep sep (a :: l) ≠ "" := by
  cases l with
  | nil => exact ha
  | cons b r =>
    show a ++ sep ++ joinSep sep (b :: r) ≠ ""
    intro h
    apply ha
    have hd : (a ++ sep ++ joinSep sep (b :: r)).data = ("" : String).data := by
      rw [h]
    rw [String.data_append, String.data_append] at hd
    have : a.data = [] := List.append_eq_nil.mp (List.append_eq_nil.mp hd).1 |>.1
    cases a
    cases this
    rfl

/-- C9: structured validation errors in the platform's draft-order reply
are surfaced verbatim, joined with " | ", as a business-level rejection —
status 200, ok:false, the joined messages as the error, no draft-order
id — not a ServerError or transport failure. -/
theorem c9_user_errors_surfaced (out : DraftOrderCreateResult)
    (hne : out.userErrors ≠ [])
    (hmsg : ∀ e ∈ out.userErrors, e.message ≠ "") :
    draftpadHandleUpstream (.ok out) =
      { status := 200, ok := false,
        error := some (joinSep " | " (out.userErrors.map UserError.message)) } := by
  have hnb : out.userErrors.isEmpty = false := by
    cases h : out.userErrors with
    | nil => exact absurd h hne
    | cons a l => rfl
  have hfilter : (out.userErrors.map UserError.message).filter (fun m => m ≠ "") =
      out.userErrors.map UserError.message := by
    rw [List.filter_eq_self]
    intro m hm
    obtain ⟨e, he, hem⟩ := List.mem_map.mp hm
    simp only [ne_eq, decide_eq_true_eq]
    rw [← hem]
    exact hmsg e he
  have hjoined : joinSep " | " (out.userErrors.map UserError.message) ≠ "" := by
    cases h : out.userErrors with
    | nil => exact absurd h hne
    | cons e l =>
      exact joinSep_ne_empty " | " e.message (l.map UserError.message)
        (hmsg e (by rw [h]; exact List.mem_cons_self e l))
  simp only [draftpadHandleUpstream, hnb, Bool.not_false, if_true]
  rw [hfilter, if_neg hjoined]

/-- Witness for C9: two structured errors come back joined verbatim. -/
theorem c9_user_errors_surfaced_witness :
    draftpadHandleUpstream (.ok ⟨[⟨"note", "too long"⟩, ⟨"email", "invalid"⟩],
        none⟩) =
      { status := 200, ok := false,
        error := some (joinSep " | " ["too long", "invalid"]) } :=
  c9_user_errors_surfaced ⟨[⟨"note", "too long"⟩, ⟨"email", "invalid"⟩], none⟩
    (by decide) (by decide)

/-- Once verification passes and the customer id normalizes, the handler
runs and uses that customer identity, whatever the action. -/
lemma handleProxy_dispatches (secret : String)
    (hmacHex : String → String → String) (jsonArray : String → Option (List JItem))
    (freshId : String) (failAt : Option UpsertStep)
    (upstream : Except String DraftOrderCreateResult) (db : DB) (req : Request)
    (cid : String)
    (hver : verifyAppProxy secret hmacHex req.query = .pass)
    (hcid : normalizeCustomerId (rawCustomerId req) = some cid) :
    (handleProxy secret hmacHex jsonArray freshId failAt upstream db
        req).dispatched = true ∧
    (handleProxy secret hmacHex jsonArray freshId failAt upstream db
        req).customerUsed = some cid := by
  unfold handleProxy
  rw [hver, hcid]
  exact ⟨rfl, rfl⟩

/-- A trimmed digit string normalizes to itself. -/
lemma normalize_digits (c : String) (htrim : jsTrim c = c) (hne : c ≠ "")
    (hdig : allDigits c = true) :
    normalizeCustomerId (some c) = some c := by
  show (if jsTrim c = "" then none
    else if allDigits (jsTrim c) = true then some (jsTrim c) else none) = some c
  rw [htrim, if_neg hne, hdig, if_pos rfl]

/-- C10: the signature covers only the query string while the dispatcher
may take the acting customer from the unsigned form body: for a fixed
query that verifies and carries no customer_id, verification is identical
for any body, and two requests differing only in the body's customer_id
both pass verification and are dispatched under the two different
customer identities. -/
theorem c10_signature_does_not_bind_customer (secret : String)
    (hmacHex : String → String → String) (jsonArray : String → Option (List JItem))
    (freshId : String) (failAt : Option UpsertStep)
    (upstream : Except String DraftOrderCreateResult) (db : DB)
    (m : String) (q : Query) (b1 b2 : List (String × String)) (c1 c2 : String)
    (hver : verifyAppProxy secret hmacHex q = .pass)
    (hq : qlookup q "customer_id" = none)
    (hb1 : (b1.find? (fun p => p.1 = "customer_id")).map Prod.snd = some c1)
    (hb2 : (b2.find? (fun p => p.1 = "customer_id")).map Prod.snd = some c2)
    (ht1 : jsTrim c1 = c1) (hn1 : c1 ≠ "") (hd1 : allDigits c1 = true)
    (ht2 : jsTrim c2 = c2) (hn2 : c2 ≠ "") (hd2 : allDigits c2 = true)
    (hne : c1 ≠ c2) :
    verifyAppProxy secret hmacHex (Request.mk m q b1).query =
      verifyAppProxy secret hmacHex (Request.mk m q b2).query ∧
    (handleProxy secret hmacHex jsonArray freshId failAt upstream db
        ⟨m, q, b1⟩).dispatched = true ∧
    (handleProxy secret hmacHex jsonArray freshId failAt upstream db
        ⟨m, q, b2⟩).dispatched = true ∧
    (handleProxy secret hmacHex jsonArray freshId failAt upstream db
        ⟨m, q, b1⟩).customerUsed = some c1 ∧
    (handleProxy secret hmacHex jsonArray freshId failAt upstream db
        ⟨m, q, b2⟩).customerUsed = some c2 ∧
    (handleProxy secret hmacHex jsonArray freshId failAt upstream db
        ⟨m, q, b1⟩).customerUsed ≠
      (handleProxy secret hmacHex jsonArray freshId failAt upstream db
        ⟨m, q, b2⟩).customerUsed := by
  have hraw1 : rawCustomerId ⟨m, q, b1⟩ = some c1 := by
    unfold rawCustomerId
    rw [show (Request.mk m q b1).query = q from rfl, hq]
    exact hb1
  have hraw2 : rawCustomerId ⟨m, q, b2⟩ = some c2 := by
    unfold rawCustomerId
    rw [show (Request.mk m q b2).query = q from rfl, hq]
    exact hb2
  have h1 := handleProxy_dispatches secret hmacHex jsonArray freshId failAt
    upstream db ⟨m, q, b1⟩ c1 hver
    (by rw [hraw1]; exact normalize_digits c1 ht1 hn1 hd1)
  have h2 := handleProxy_dispatches secret hmacHex jsonArray freshId failAt
    upstream db ⟨m, q, b2⟩ c2 hver
    (by rw [hraw2]; exact normalize_digits c2 ht2 hn2 hd2)
  refine ⟨rfl, h1.1, h2.1, h1.2, h2.2, ?_⟩
  rw [h1.2, h2.2]
  intro h
  exact hne (Option.some.injEq c1 c2 ▸ h)

/-- A query whose signature verifies under the constant stand-in HMAC and
which carries no customer_id. -/
def c10Query : Query :=
  [("action", QVal.one "list"), ("signature", QVal.one hex64)]

/-- Witness for C10: the same signed query with two bodies naming
customers 1 and 2 verifies both times and dispatches as two different
customers. -/
theorem c10_signature_does_not_bind_customer_witness :
    verifyAppProxy "k" hmacConst (Request.mk "GET" c10Query
        [("customer_id", "1")]).query =
      verifyAppProxy "k" hmacConst (Request.mk "GET" c10Query
        [("customer_id", "2")]).query ∧
    (handleProxy "k" hmacConst (fun _ => none) "f" none (.error "") ⟨[], []⟩
        ⟨"GET", c10Query, [("customer_id", "1")]⟩).dispatched = true ∧
    (handleProxy "k" hmacConst (fun _ => none) "f" none (.error "") ⟨[], []⟩
        ⟨"GET", c10Query, [("customer_id", "2")]⟩).dispatched = true ∧
    (handleProxy "k" hmacConst (fun _ => none) "f" none (.error "") ⟨[], []⟩
        ⟨"GET", c10Query, [("customer_id", "1")]⟩).customerUsed = some "1" ∧
    (handleProxy "k" hmacConst (fun _ => none) "f" none (.error "") ⟨[], []⟩
        ⟨"GET", c10Query, [("customer_id", "2")]⟩).customerUsed = some "2" ∧
    (handleProxy "k" hmacConst (fun _ => none) "f" none (.error "") ⟨[], []⟩
        ⟨"GET", c10Query, [("customer_id", "1")]⟩).customerUsed ≠
      (handleProxy "k" hmacConst (fun _ => none) "f" none (.error "") ⟨[], []⟩
        ⟨"GET", c10Query, [("customer_id", "2")]⟩).customerUsed :=
  c10_signature_does_not_bind_customer "k" hmacConst (fun _ => none) "f" none
    (.error "") ⟨[], []⟩ "GET" c10Query [("customer_id", "1")]
    [("customer_id", "2")] "1" "2" (by decide) (by decide) (by decide)
    (by decide) (by decide) (by decide) (by decide) (by decide) (by decide)
    (by decide) (by decide)

end B2B
